import Mathlib

/-!
# Verification of the rate-limiting subsystem of `dataforge`

Shallow embedding of `app/services/rate_limiting_service.py`.

Conventions of the embedding:
* Python `float` values (token counts, delays, timestamps) are modelled as `ℚ`.
  The claims checked here concern orderings, cappings and exact small-number
  arithmetic, which coincide for `ℚ` and ideal reals; no claim depends on
  binary floating-point rounding.
* Wall-clock time (`time.time()`) is modelled by an explicit stream
  `clock : ℕ → ℚ` consumed one value per call site, threaded through the
  state as an index.  `random.uniform(-r, r)` is modelled as `r * u` for a
  stream value `u` with `|u| ≤ 1` (same range of outcomes).
* Python's builtin `min`/`max` are modelled by `pymin`/`pymax` below, which
  are definitionally `if a ≤ b then a else b` (shown equal to Mathlib's
  `min`/`max` in `pymin_eq_min`/`pymax_eq_max`).
* Python exceptions are modelled with `Except PyErr`.
* `async` suspension (`asyncio.sleep`, semaphore waits) has no effect on the
  manager state; sleeps are recorded in a trace field so that claims about
  "sleeps before retries" are statable.  The semaphore only bounds
  cross-call concurrency and is irrelevant to the single-call claims below.
-/

namespace RateLimiting

/-- Python's builtin `min` on two floats. -/
def pymin (a b : ℚ) : ℚ := if a ≤ b then a else b

/-- Python's builtin `max` on two floats. -/
def pymax (a b : ℚ) : ℚ := if a ≤ b then b else a

theorem pymin_eq_min (a b : ℚ) : pymin a b = min a b := (min_def a b).symm

theorem pymax_eq_max (a b : ℚ) : pymax a b = max a b := (max_def a b).symm

/-- Python exceptions that the modelled code can raise.
`maxRetriesExceeded` is the `RateLimitError("Max retries ... exceeded")`
raised at the end of `rate_limited_request` (line 470); `runtimeGenDidNotStop`
is the `RuntimeError("generator didn't stop after athrow()")` raised by
`contextlib`'s `_AsyncGeneratorContextManager.__aexit__` when the decorated
generator yields again after an exception was thrown into it; `opError tag`
stands for an arbitrary non-`RateLimitError` exception raised by the
protected operation. -/
inductive PyErr where
  | typeError
  | valueError
  | keyError
  | maxRetriesExceeded
  | runtimeGenDidNotStop
  | opError (tag : ℕ)
deriving DecidableEq

/-! ## TokenBucket (source lines 135-164) -/

/-- `TokenBucket` state.  `capacity` is an `int` in the source and `tokens`
a float (it starts at `capacity` and is mutated by float refills); both are
`ℚ` here. -/
structure TokenBucket where
  capacity : ℚ
  refill_rate : ℚ
  tokens : ℚ
  last_refill : ℚ
deriving DecidableEq

/-- `TokenBucket.__init__`: `self.tokens = capacity`, `self.last_refill = time.time()`
(the construction-time clock value is the parameter `t0`). -/
def TokenBucket.init (capacity : ℚ) (refill_rate : ℚ) (t0 : ℚ) : TokenBucket :=
  { capacity := capacity, refill_rate := refill_rate, tokens := capacity, last_refill := t0 }

/-- `TokenBucket.consume` (lines 149-164).  `now` is the value read from
`time.time()` inside the critical section; `n` is the `tokens: int` argument.
Refill: `elapsed * refill_rate`, capped at `capacity`; `last_refill` is set
to `now` before the availability check, hence in both branches. -/
def consume (b : TokenBucket) (now : ℚ) (n : ℤ) : TokenBucket × Bool :=
  let elapsed := now - b.last_refill
  let new_tokens := elapsed * b.refill_rate
  let cur := pymin b.capacity (b.tokens + new_tokens)
  if (n : ℚ) ≤ cur then
    ({ b with tokens := cur - (n : ℚ), last_refill := now }, true)
  else
    ({ b with tokens := cur, last_refill := now }, false)

/-! ## ExponentialBackoff (source lines 90-132) -/

/-- `ExponentialBackoff.__init__` configuration. -/
structure ExponentialBackoff where
  initial_delay : ℚ
  max_delay : ℚ
  exponential_base : ℚ
  jitter : Bool
  max_retries : ℕ
deriving DecidableEq

/-- The default configuration built by `ExponentialBackoff()`
(and installed by `RateLimitManager.__init__`, line 298). -/
def defaultBackoff : ExponentialBackoff :=
  { initial_delay := 1, max_delay := 60, exponential_base := 2, jitter := true, max_retries := 6 }

/-- The value of the local variable `delay` after line 118:
`min(initial_delay * base ** (attempt - 1), max_delay)` — the pre-jitter
(capped) delay. -/
def capped_delay (b : ExponentialBackoff) (attempt : ℤ) : ℚ :=
  pymin (b.initial_delay * b.exponential_base ^ (attempt - 1).toNat) b.max_delay

/-- `ExponentialBackoff.calculate_delay` (lines 109-125).  `u` models the
uniform sample: `random.uniform(-jitter_range, jitter_range) = jitter_range * u`
with `|u| ≤ 1`, where `jitter_range = delay * 0.1`.  The final
`max(0.0, delay)` floor is line 125. -/
def calculate_delay (b : ExponentialBackoff) (attempt : ℤ) (u : ℚ) : ℚ :=
  if attempt ≤ 0 then 0
  else
    let delay := capped_delay b attempt
    let delay := if b.jitter then delay + delay * (1 / 10) * u else delay
    pymax 0 delay

/-! ## Claims C5, C6, C7 -/

/-- Claim C5: for every `n ≥ 0`, `TokenBucket.consume(n)` first refills by
`elapsed * refillRate` capped at `capacity`, then, if the refilled token
count is `≥ n`, decrements by `n` and returns `True`, else returns `False`
leaving the post-refill token count unchanged (in both branches
`last_refill` advances to `now`). -/
theorem consume_refill_then_decide (b : TokenBucket) (now : ℚ) (n : ℤ) (_hn : 0 ≤ n) :
    consume b now n =
      (if (n : ℚ) ≤ min b.capacity (b.tokens + (now - b.last_refill) * b.refill_rate) then
        ({ b with tokens := min b.capacity (b.tokens + (now - b.last_refill) * b.refill_rate) - (n : ℚ),
                  last_refill := now }, true)
      else
        ({ b with tokens := min b.capacity (b.tokens + (now - b.last_refill) * b.refill_rate),
                  last_refill := now }, false)) := by
  simp only [consume, pymin_eq_min]

/-- Witness for C5: a concrete successful consumption.  Capacity 10, refill
rate 1, 3 tokens left, 2 seconds elapsed: refilled to 5, consume 2 → 3 left. -/
theorem consume_refill_then_decide_witness :
    consume { capacity := 10, refill_rate := 1, tokens := 3, last_refill := 0 } 2 2 =
      ({ capacity := 10, refill_rate := 1, tokens := 3, last_refill := 2 }, true) := by
  have h := consume_refill_then_decide
    { capacity := 10, refill_rate := 1, tokens := 3, last_refill := 0 } 2 2 (by norm_num)
  rw [h]; norm_num

/-- The bucket invariant of claim C6: `0 ≤ currentTokens ≤ capacity`. -/
def bucketInv (b : TokenBucket) : Prop := 0 ≤ b.tokens ∧ b.tokens ≤ b.capacity

/-- Counterexample to claim C6 as stated ("preserved by every call to
`consume(n)`, for every argument `n`"): with capacity 10 and refill rate 1
(both in the claim's range), consuming `n = -5` from a full bucket leaves 15
tokens (`> capacity`), and a `time.time()` reading earlier than
`last_refill` (the source nowhere guards against a non-monotone clock)
makes the token count negative. -/
theorem consume_invariant_counterexample :
    ((consume { capacity := 10, refill_rate := 1, tokens := 10, last_refill := 0 } 0 (-5)).1.tokens > 10) ∧
    ((consume { capacity := 10, refill_rate := 1, tokens := 5, last_refill := 100 } 0 1).1.tokens < 0) := by
  constructor <;> norm_num [consume, pymin]

/-- Claim C6 as amended: for every `TokenBucket` with `capacity ≥ 1` and
refill rate `> 0`, the invariant `0 ≤ currentTokens ≤ capacity` holds after
construction, and is preserved by `consume(n)` whenever `n ≥ 0` and the
clock reading is not earlier than the bucket's `last_refill`. -/
theorem consume_invariant_amended :
    (∀ cap rate t0 : ℚ, 1 ≤ cap → bucketInv (TokenBucket.init cap rate t0)) ∧
    (∀ (b : TokenBucket) (now : ℚ) (n : ℤ), bucketInv b → 0 < b.refill_rate →
      b.last_refill ≤ now → 0 ≤ n → bucketInv (consume b now n).1) := by
  constructor
  · intro cap rate t0 hcap
    exact ⟨le_trans zero_le_one hcap, le_refl _⟩
  · intro b now n hinv hrate hnow hn
    obtain ⟨h0, hc⟩ := hinv
    have hcap0 : (0 : ℚ) ≤ b.capacity := le_trans h0 hc
    have hrefill : (0 : ℚ) ≤ (now - b.last_refill) * b.refill_rate :=
      mul_nonneg (by linarith) (le_of_lt hrate)
    have hcur0 : (0 : ℚ) ≤ min b.capacity (b.tokens + (now - b.last_refill) * b.refill_rate) :=
      le_min hcap0 (by linarith)
    have hcurc : min b.capacity (b.tokens + (now - b.last_refill) * b.refill_rate) ≤ b.capacity :=
      min_le_left _ _
    have hn' : (0 : ℚ) ≤ (n : ℚ) := by exact_mod_cast hn
    simp only [consume, pymin_eq_min, bucketInv]
    by_cases h : (n : ℚ) ≤ min b.capacity (b.tokens + (now - b.last_refill) * b.refill_rate)
    · rw [if_pos h]
      dsimp only
      constructor <;> linarith
    · rw [if_neg h]
      dsimp only
      exact ⟨hcur0, hcurc⟩

/-- Witness for the amended C6: a freshly constructed bucket satisfies the
invariant, and a concrete `consume` preserves it. -/
theorem consume_invariant_amended_witness :
    bucketInv (TokenBucket.init 10 1 0) ∧
    bucketInv (consume { capacity := 10, refill_rate := 1, tokens := 3, last_refill := 0 } 2 2).1 := by
  refine ⟨consume_invariant_amended.1 10 1 0 (by norm_num), ?_⟩
  exact consume_invariant_amended.2
    { capacity := 10, refill_rate := 1, tokens := 3, last_refill := 0 } 2 2
    ⟨by norm_num, by norm_num⟩ (by norm_num) (by norm_num) (by norm_num)

/-- Counterexample to claim C7 as stated ("the returned delay is always
`≤ maxDelay`"): with the default configuration (`initial_delay = 1`,
`max_delay = 60`, `base = 2`, jitter enabled — the configuration
`RateLimitManager.__init__` installs), attempt 7 caps at 60 but the uniform
jitter sample at the top of its range (`u = 1`, i.e. `+10%`) yields 66. -/
theorem calculate_delay_counterexample :
    ¬ (calculate_delay defaultBackoff 7 1 ≤ defaultBackoff.max_delay) := by
  have h6 : Int.toNat 6 = 6 := rfl
  norm_num [calculate_delay, capped_delay, defaultBackoff, pymin, pymax, h6]

/-- Claim C7 as amended: for a configuration with `base ≥ 1`,
`initial_delay ≥ 0` and `max_delay ≥ 0` (all true of the default
configuration the manager installs), the delay before jitter is applied is
monotonically non-decreasing in the attempt number and always `≤ maxDelay`;
`calculate_delay` returns 0 for `attempt ≤ 0`; with jitter disabled the
returned delay is `≤ maxDelay`; and with jitter enabled (uniform sample
within `±10%` of the capped delay, `|u| ≤ 1`) the returned delay is
`≤ maxDelay + maxDelay/10`, i.e. it may exceed `maxDelay` by at most 10%. -/
theorem calculate_delay_amended (b : ExponentialBackoff)
    (hbase : 1 ≤ b.exponential_base) (hinit : 0 ≤ b.initial_delay) (hmax : 0 ≤ b.max_delay) :
    (∀ a1 a2 : ℤ, a1 ≤ a2 → capped_delay b a1 ≤ capped_delay b a2) ∧
    (∀ a : ℤ, capped_delay b a ≤ b.max_delay) ∧
    (∀ (a : ℤ) (u : ℚ), a ≤ 0 → calculate_delay b a u = 0) ∧
    (∀ (a : ℤ) (u : ℚ), b.jitter = false → calculate_delay b a u ≤ b.max_delay) ∧
    (∀ (a : ℤ) (u : ℚ), |u| ≤ 1 →
      calculate_delay b a u ≤ b.max_delay + b.max_delay * (1 / 10)) := by
  have hbase0 : (0 : ℚ) ≤ b.exponential_base := le_trans zero_le_one hbase
  have hcap_nonneg : ∀ a : ℤ, 0 ≤ capped_delay b a := by
    intro a
    rw [capped_delay, pymin_eq_min]
    exact le_min (mul_nonneg hinit (pow_nonneg hbase0 _)) hmax
  have hcap_le : ∀ a : ℤ, capped_delay b a ≤ b.max_delay := by
    intro a
    rw [capped_delay, pymin_eq_min]
    exact min_le_right _ _
  refine ⟨?_, hcap_le, ?_, ?_, ?_⟩
  · intro a1 a2 h
    unfold capped_delay
    rw [pymin_eq_min, pymin_eq_min]
    refine min_le_min ?_ (le_refl _)
    refine mul_le_mul_of_nonneg_left ?_ hinit
    exact pow_le_pow_right₀ hbase (Int.toNat_le_toNat (by omega))
  · intro a u ha
    unfold calculate_delay
    rw [if_pos ha]
  · intro a u hj
    unfold calculate_delay
    by_cases ha : a ≤ 0
    · rw [if_pos ha]; exact hmax
    · rw [if_neg ha]
      simp only [hj, Bool.false_eq_true, if_false]
      rw [pymax_eq_max]
      exact max_le hmax (hcap_le a)
  · intro a u hu
    unfold calculate_delay
    by_cases ha : a ≤ 0
    · rw [if_pos ha]
      nlinarith [hmax]
    · rw [if_neg ha]
      have hd0 := hcap_nonneg a
      have hdm := hcap_le a
      have hu1 : u ≤ 1 := le_of_abs_le hu
      have hju : capped_delay b a * (1 / 10) * u ≤ capped_delay b a * (1 / 10) := by
        nlinarith
      by_cases hj : b.jitter
      · simp only [hj, if_true]
        rw [pymax_eq_max]
        refine max_le (by nlinarith) (by nlinarith)
      · simp only [hj, Bool.false_eq_true, if_false]
        rw [pymax_eq_max]
        refine max_le (by nlinarith) (by nlinarith)

/-- Witness for the amended C7: with the default configuration, the capped
delay at attempt 7 is at most 60 and the jittered return value at most 66. -/
theorem calculate_delay_amended_witness :
    capped_delay defaultBackoff 7 ≤ 60 ∧ calculate_delay defaultBackoff 7 1 ≤ 66 := by
  have h := calculate_delay_amended defaultBackoff (by norm_num [defaultBackoff])
    (by norm_num [defaultBackoff]) (by norm_num [defaultBackoff])
  constructor
  · exact h.2.1 7
  · have h66 := h.2.2.2.2 7 1 (by norm_num)
    have : defaultBackoff.max_delay + defaultBackoff.max_delay * (1 / 10) = 66 := by
      norm_num [defaultBackoff]
    rw [this] at h66
    exact h66

/-! ## Rate limit info, metrics, and the manager state (lines 32-79, 270-309) -/

/-- `RateLimitType` enum (lines 32-37). -/
inductive RateLimitType where
  | requests_per_minute
  | tokens_per_minute
  | requests_per_day
  | tokens_per_day
deriving DecidableEq

/-- `RateLimitInfo` dataclass (lines 40-56).  `reset_time` is a `datetime`
modelled as seconds (`ℚ`). -/
structure RateLimitInfo where
  limit : ℤ
  remaining : ℤ
  reset_time : ℚ
  reset_duration : Option ℚ
deriving DecidableEq

/-- `RateLimitInfo.usage_percentage` (lines 48-51). -/
def usage_percentage (i : RateLimitInfo) : ℚ :=
  if 0 < i.limit then ((i.limit : ℚ) - (i.remaining : ℚ)) / (i.limit : ℚ) * 100 else 0

/-- The body of the `is_near_limit` *property* (lines 53-56).  Because the
source decorates it with `@property`, every attribute access evaluates it
with the default `threshold = 0.8`; the source can never pass another
threshold (see `check_proactive_limits` below). -/
def is_near_limit (i : RateLimitInfo) : Bool :=
  decide (usage_percentage i ≥ (8 / 10) * 100)

/-- `RateLimitMetrics` dataclass (lines 59-78). -/
structure RateLimitMetrics where
  total_requests : ℕ
  successful_requests : ℕ
  rate_limited_requests : ℕ
  retried_requests : ℕ
  average_response_time : ℚ
  peak_rpm : ℕ
  peak_tpm : ℕ
  last_reset : Option ℚ
deriving DecidableEq

/-- The all-zero metrics built by `RateLimitMetrics()`. -/
def metrics0 : RateLimitMetrics :=
  { total_requests := 0, successful_requests := 0, rate_limited_requests := 0,
    retried_requests := 0, average_response_time := 0, peak_rpm := 0, peak_tpm := 0,
    last_reset := none }

/-- `RateLimitMetrics.update_response_time` (lines 71-78): exponential
moving average with smoothing factor `alpha = 0.1`, seeded with the first
sample. -/
def update_response_time (m : RateLimitMetrics) (response_time : ℚ) : RateLimitMetrics :=
  if m.average_response_time = 0 then { m with average_response_time := response_time }
  else { m with average_response_time :=
    (1 / 10) * response_time + (1 - 1 / 10) * m.average_response_time }

/-- `RateLimitManager` state (lines 270-309).  The `_rate_limit_info` dict
is keyed by `RateLimitType`; the source only ever writes the
`REQUESTS_PER_MINUTE` and `TOKENS_PER_MINUTE` keys, so it is modelled by the
two `Option` fields (`get_rate_limit_info` below reproduces the lookup,
returning `none` for the never-written day keys).  The `asyncio.Semaphore`
only gates cross-call concurrency and carries no per-call data; the claims
below are all about a single logical call, so it is not part of the state.
`_request_times` / `_token_usage` model the two deques. -/
structure RateLimitManager where
  requests_per_minute : ℤ
  tokens_per_minute : ℤ
  max_concurrent_requests : ℕ
  request_bucket : TokenBucket
  token_bucket : TokenBucket
  backoff : ExponentialBackoff
  metrics : RateLimitMetrics
  rpm_info : Option RateLimitInfo
  tpm_info : Option RateLimitInfo
  request_times : List ℚ
  token_usage : List ℤ
deriving DecidableEq

/-- `RateLimitManager.__init__` (lines 275-309); `t0` is the construction
time read by the two `TokenBucket` constructors. -/
def RateLimitManager.init (rpm tpm : ℤ) (mcr : ℕ) (t0 : ℚ) : RateLimitManager :=
  { requests_per_minute := rpm, tokens_per_minute := tpm, max_concurrent_requests := mcr,
    request_bucket := TokenBucket.init (rpm : ℚ) ((rpm : ℚ) / 60) t0,
    token_bucket := TokenBucket.init (tpm : ℚ) ((tpm : ℚ) / 60) t0,
    backoff := defaultBackoff, metrics := metrics0,
    rpm_info := none, tpm_info := none, request_times := [], token_usage := [] }

/-- `RateLimitManager.get_rate_limit_info` (lines 371-373): dict lookup. -/
def get_rate_limit_info (m : RateLimitManager) : RateLimitType → Option RateLimitInfo
  | .requests_per_minute => m.rpm_info
  | .tokens_per_minute => m.tpm_info
  | _ => none

/-! ## Header parsing (lines 311-369) -/

/-- Header maps, `Dict[str, str]` in the source. -/
abbrev Headers := List (String × String)

/-- Decimal value of a digit run. -/
def digitsVal (l : List Char) : ℕ :=
  l.foldl (fun acc c => acc * 10 + (c.toNat - 48)) 0

/-- ASCII whitespace, as stripped by Python's `str.strip()`. -/
def pyIsSpace (c : Char) : Bool :=
  c = ' ' || c = '\t' || c = '\n' || c = '\x0d' || c = '\x0c' || c = '\x0b'

/-- Python's `str.strip()` on the character list of a string. -/
def pyStrip (l : List Char) : List Char :=
  ((l.dropWhile pyIsSpace).reverse.dropWhile pyIsSpace).reverse

/-- Python's `int(s)` restricted to what the rate-limit headers can carry:
optional surrounding whitespace, an optional sign, then decimal digits;
anything else raises `ValueError`.  (Python's `int` also accepts
underscores between digits and non-ASCII digits; no claim involves those.) -/
def pyInt (s : String) : Except PyErr ℤ :=
  match pyStrip s.data with
  | [] => .error .valueError
  | '+' :: rest =>
    if !rest.isEmpty && rest.all Char.isDigit then .ok (digitsVal rest : ℤ)
    else .error .valueError
  | '-' :: rest =>
    if !rest.isEmpty && rest.all Char.isDigit then .ok (-(digitsVal rest : ℤ))
    else .error .valueError
  | cs =>
    if cs.all Char.isDigit then .ok (digitsVal cs : ℤ) else .error .valueError

/-- The scanner for `re.findall(r'(\d+)([a-zA-Z])', s)` (line 334): a match
is a maximal digit run immediately followed by a letter (shrinking the
greedy `\d+` can never help, because the character after a maximal digit
run is not a digit, so any shorter run is still followed by a non-letter
digit).  The fuel argument only serves termination and exceeds the number
of characters consumed. -/
def scanGo : ℕ → List Char → List (ℕ × Char)
  | 0, _ => []
  | _, [] => []
  | f + 1, c :: cs =>
    if c.isDigit then
      let ds := (c :: cs).takeWhile Char.isDigit
      match (c :: cs).dropWhile Char.isDigit with
      | [] => []
      | u :: cs' =>
        if u.isAlpha then (digitsVal ds, u) :: scanGo f cs' else scanGo f cs'
    else scanGo f cs

/-- All `(digits)(letter)` matches of a string, in order. -/
def findNumUnit (l : List Char) : List (ℕ × Char) := scanGo (l.length + 1) l

/-- The accumulated seconds of `parse_duration` as a natural number.  Every
contribution (`value`, `value*60`, `value*3600`) is a non-negative integer,
so the float accumulator of the source holds exactly this value.  Note the
source compares the single-character unit group against `['s','sec']`,
`['m','min']`, `['h','hour']`; only the one-letter alternatives can match,
and unknown units (including capital letters) are silently ignored. -/
def parse_duration_nat (s : String) : ℕ :=
  if s.data.isEmpty then 0
  else
    (findNumUnit (pyStrip s.data)).foldl
      (fun acc p =>
        if p.2 = 's' then acc + p.1
        else if p.2 = 'm' then acc + p.1 * 60
        else if p.2 = 'h' then acc + p.1 * 3600
        else acc) 0

/-- `parse_duration` (lines 324-344), as the float (`ℚ`) the source returns. -/
def parse_duration (s : String) : ℚ := (parse_duration_nat s : ℚ)

/-- `headers.get(key, default)`. -/
def hget (h : Headers) (k : String) : Option String :=
  match h.find? (fun p => p.1 == k) with
  | some p => some p.2
  | none => none

/-- `int(headers.get(k, 0))`: the default `0` is already an `int`. -/
def getIntHeader (h : Headers) (k : String) : Except PyErr ℤ :=
  match hget h k with
  | none => .ok 0
  | some s => pyInt s

/-- The body of the `try` block of `update_rate_limits_from_headers`
(lines 313-366): parse the six headers (the four `int(...)` calls can raise
`ValueError`, in source order), then store a fresh `RateLimitInfo` for each
dimension whose limit is positive, with `reset_time = now + parsed duration`. -/
def updateFromHeadersExc (m : RateLimitManager) (h : Headers) (now : ℚ) :
    Except PyErr RateLimitManager :=
  match getIntHeader h "x-ratelimit-limit-requests" with
  | .error e => .error e
  | .ok rpm_limit =>
  match getIntHeader h "x-ratelimit-remaining-requests" with
  | .error e => .error e
  | .ok rpm_remaining =>
  match getIntHeader h "x-ratelimit-limit-tokens" with
  | .error e => .error e
  | .ok tpm_limit =>
  match getIntHeader h "x-ratelimit-remaining-tokens" with
  | .error e => .error e
  | .ok tpm_remaining =>
  let rpm_reset := (hget h "x-ratelimit-reset-requests").getD "0s"
  let tpm_reset := (hget h "x-ratelimit-reset-tokens").getD "0s"
  let rpmNew : RateLimitInfo :=
    { limit := rpm_limit, remaining := rpm_remaining,
      reset_time := now + parse_duration rpm_reset,
      reset_duration := some (parse_duration rpm_reset) }
  let tpmNew : RateLimitInfo :=
    { limit := tpm_limit, remaining := tpm_remaining,
      reset_time := now + parse_duration tpm_reset,
      reset_duration := some (parse_duration tpm_reset) }
  let m1 := if 0 < rpm_limit then { m with rpm_info := some rpmNew } else m
  let m2 := if 0 < tpm_limit then { m1 with tpm_info := some tpmNew } else m1
  .ok m2

/-- `update_rate_limits_from_headers` (lines 311-369): the `except
(ValueError, KeyError)` clause logs and swallows the error, leaving the
state as it was when the exception was raised (which is the incoming state:
all fallible parses precede the first store).  `updateFromHeadersExc` only
produces `valueError` (theorem `update_from_headers_never_raises`), so
catching every error here is faithful. -/
def update_rate_limits_from_headers (m : RateLimitManager) (h : Headers) (now : ℚ) :
    RateLimitManager :=
  match updateFromHeadersExc m h now with
  | .ok m' => m'
  | .error _ => m

/-- `True` when one of the four integer-valued rate-limit headers is
present but unparseable — the malformed-headers condition of claim C4. -/
def badHeaders (h : Headers) : Bool :=
  (getIntHeader h "x-ratelimit-limit-requests").isOk = false ||
  (getIntHeader h "x-ratelimit-remaining-requests").isOk = false ||
  (getIntHeader h "x-ratelimit-limit-tokens").isOk = false ||
  (getIntHeader h "x-ratelimit-remaining-tokens").isOk = false

/-! ## check_proactive_limits (lines 375-397) and claim C1 -/

/-- `check_proactive_limits`.  The two blocking checks (lines 381-388)
return `(False, reason)` (the interpolated numeric suffix of each reason
message is elided).  Reaching the advisory-throttling check (line 391 or
394) with a tracked dimension raises `TypeError`: `is_near_limit` is a
`@property`, so `rpm_info.is_near_limit` is already the `bool` produced by
the getter, and `(...)(threshold=0.9)` calls that `bool`, which is not
callable. -/
def check_proactive_limits (m : RateLimitManager) (estimated_tokens : ℤ) :
    Except PyErr (Bool × Option String) :=
  let rpm_info := get_rate_limit_info m .requests_per_minute
  let tpm_info := get_rate_limit_info m .tokens_per_minute
  if (rpm_info.map (fun i => decide (i.remaining ≤ 0))).getD false then
    .ok (false, some "Request rate limit exceeded")
  else if (tpm_info.map (fun i => decide (i.remaining < estimated_tokens))).getD false then
    .ok (false, some "Token rate limit would be exceeded")
  else if rpm_info.isSome then .error .typeError
  else if tpm_info.isSome then .error .typeError
  else .ok (true, none)

/-! ## Claims C3, C4, C1 -/

/-- The header map of claim C3. -/
def hdrs3 : Headers :=
  [("x-ratelimit-limit-requests", "60"), ("x-ratelimit-remaining-requests", "50"),
   ("x-ratelimit-reset-requests", "10s"), ("x-ratelimit-limit-tokens", "40000"),
   ("x-ratelimit-remaining-tokens", "35000"), ("x-ratelimit-reset-tokens", "1m")]

/-- Claim C3: applying `update_rate_limits_from_headers` to the C3 header
map stores, for any prior state and any current time `now`,
`RateLimitInfo(limit=60, remaining=50, reset 10s)` for the
requests-per-minute dimension and `(limit=40000, remaining=35000, reset 60s)`
for the tokens-per-minute dimension, each with `reset_time = now + duration`. -/
theorem update_from_headers_example (m : RateLimitManager) (now : ℚ) :
    (update_rate_limits_from_headers m hdrs3 now).rpm_info =
      some { limit := 60, remaining := 50, reset_time := now + 10, reset_duration := some 10 } ∧
    (update_rate_limits_from_headers m hdrs3 now).tpm_info =
      some { limit := 40000, remaining := 35000, reset_time := now + 60, reset_duration := some 60 } := by
  constructor <;> rfl

theorem pyInt_error (s : String) (e : PyErr) (h : pyInt s = .error e) : e = PyErr.valueError := by
  unfold pyInt at h
  split at h <;> first
    | (exact (Except.error.injEq _ _ ▸ h).symm ▸ rfl)
    | (split at h <;> simp_all)

theorem getIntHeader_error (h : Headers) (k : String) (e : PyErr)
    (he : getIntHeader h k = .error e) : e = PyErr.valueError := by
  unfold getIntHeader at he
  split at he
  · simp_all
  · exact pyInt_error _ _ he

/-- Claim C4: `update_rate_limits_from_headers` never lets an exception
escape (the only exception the `try` body can raise is the `ValueError`
from the four `int(...)` parses, and the `except (ValueError, KeyError)`
clause catches it), and whenever one of the four integer headers is present
but malformed, the entire stored state — in particular the malformed
dimension's previously stored info — is unchanged, because all four parses
happen before the first store. -/
theorem update_from_headers_never_raises (m : RateLimitManager) (h : Headers) (now : ℚ) :
    (∀ e, updateFromHeadersExc m h now = .error e → e = PyErr.valueError) ∧
    (badHeaders h = true → update_rate_limits_from_headers m h now = m) := by
  unfold update_rate_limits_from_headers updateFromHeadersExc badHeaders
  cases h1 : getIntHeader h "x-ratelimit-limit-requests" with
  | error e1 =>
    have := getIntHeader_error h _ e1 h1
    subst this
    exact ⟨fun e he => by simp_all, fun _ => by simp_all⟩
  | ok v1 =>
    cases h2 : getIntHeader h "x-ratelimit-remaining-requests" with
    | error e2 =>
      have := getIntHeader_error h _ e2 h2
      subst this
      exact ⟨fun e he => by simp_all, fun _ => by simp_all⟩
    | ok v2 =>
      cases h3 : getIntHeader h "x-ratelimit-limit-tokens" with
      | error e3 =>
        have := getIntHeader_error h _ e3 h3
        subst this
        exact ⟨fun e he => by simp_all, fun _ => by simp_all⟩
      | ok v3 =>
        cases h4 : getIntHeader h "x-ratelimit-remaining-tokens" with
        | error e4 =>
          have := getIntHeader_error h _ e4 h4
          subst this
          exact ⟨fun e he => by simp_all, fun _ => by simp_all⟩
        | ok v4 =>
          exact ⟨fun e he => by simp_all, fun hb => by simp [Except.toBool] at hb⟩

/-- Witness for C4: a malformed `x-ratelimit-limit-requests` header leaves
a concrete manager unchanged. -/
theorem update_from_headers_never_raises_witness :
    update_rate_limits_from_headers (RateLimitManager.init 60 40000 10 0)
      [("x-ratelimit-limit-requests", "abc")] 0 = RateLimitManager.init 60 40000 10 0 :=
  (update_from_headers_never_raises (RateLimitManager.init 60 40000 10 0)
    [("x-ratelimit-limit-requests", "abc")] 0).2 (by decide)

/-- A manager that has seen the C3 headers: the requests-per-minute
dimension is tracked with `remaining = 50 > 0`. -/
def mTracked : RateLimitManager :=
  { RateLimitManager.init 60 40000 10 0 with
    rpm_info := some { limit := 60, remaining := 50, reset_time := 10, reset_duration := some 10 } }

/-- Claim C1 (code bug): with requests-per-minute info tracked and neither
blocking condition met (remaining = 50 > 0, no token info), the claim (and
the function's own docstring) says `check_proactive_limits` returns
`(True, None)` and at most logs; the code instead raises `TypeError` at
line 391, because `is_near_limit` is a `@property` whose access already
yields a `bool`, which `(...)(threshold=0.9)` then tries to call. -/
theorem check_proactive_raises_type_error :
    check_proactive_limits mTracked 0 = .error .typeError := by
  rfl

/-! ## `rate_limited_request` (lines 399-470)

The source decorates an `async` generator with `@asynccontextmanager` and
retries *around* the `yield`.  The context-manager protocol fixes the
execution order modelled below:

* `__aenter__` advances the generator to its first `yield`: the gating loop
  (proactive check, both bucket consumptions, tracking-deque update) runs,
  looping over attempts on proactive blocks and bucket denials, until it
  either yields or raises (`gatingLoop` below).
* The `with`-body — the protected operation — then runs **exactly once**.
* On a body exception, `__aexit__` calls `gen.athrow(exc)`: the exception
  materialises at `yield self`.  A non-`RateLimitError` is re-raised by the
  `except Exception` clause (line 465-467) and propagates.  A
  `RateLimitError` is caught (line 453): metrics, sleep, `retried_requests`;
  the loop then continues — but if it reaches `yield self` again,
  `contextlib` raises `RuntimeError("generator didn't stop after athrow()")`,
  because an `(async)contextmanager` generator must yield exactly once.  If
  instead the loop exits (attempts exhausted) the `RateLimitError` of line
  470 propagates out of `athrow` to the caller (`handleBody` below).
* On body success, `__aexit__` resumes the generator: success metrics run
  and the generator returns cleanly.

The state carries a clock index `ci` (next `time.time()` read), a random
index `ri` (next `random.uniform` draw), the trace of performed sleeps,
the number of times the protected operation ran (`opRuns`), and the number
of loop iterations started (`attempts` — the ghost counter of claim C10,
incremented exactly together with `metrics.total_requests`). -/

/-- Per-call execution state: manager state plus trace/ghost fields. -/
structure RLRState where
  m : RateLimitManager
  ci : ℕ
  ri : ℕ
  sleeps : List ℚ
  opRuns : ℕ
  attempts : ℕ
deriving DecidableEq

/-- Lines 409-410: `attempt += 1; self.metrics.total_requests += 1` (the
ghost `attempts` counter is incremented exactly here and nowhere else). -/
def bumpAttempt (st : RLRState) : RLRState :=
  { st with
    m := { st.m with metrics :=
      { st.m.metrics with total_requests := st.m.metrics.total_requests + 1 } },
    attempts := st.attempts + 1 }

/-- `ExponentialBackoff.sleep(attempt)` (lines 127-132): compute the delay
(consuming one `random.uniform` draw when jitter is enabled — every call
site passes `attempt ≥ 1`, so the early return for `attempt ≤ 0` never
skips the draw) and sleep iff `delay > 0`, recording the sleep. -/
def backoffSleep (noise : ℕ → ℚ) (st : RLRState) (attempt : ℕ) : RLRState :=
  let d := calculate_delay st.m.backoff (attempt : ℤ) (noise st.ri)
  { st with
    ri := st.ri + (if st.m.backoff.jitter then 1 else 0),
    sleeps := if 0 < d then st.sleeps ++ [d] else st.sleeps }

/-- `while self._request_times and self._request_times[0] < cutoff_time:
popleft()` (lines 440-441). -/
def pruneOld : List ℚ → ℚ → List ℚ
  | [], _ => []
  | x :: xs, cutoff => if x < cutoff then pruneOld xs cutoff else x :: xs

/-- `while len(self._token_usage) > len(self._request_times): popleft()`
(lines 442-443). -/
def dropExcess (l : List ℤ) (n : ℕ) : List ℤ := l.drop (l.length - n)

/-- Outcome of one iteration of the gating part of the attempt loop. -/
inductive StepOut where
  | proceed (st : RLRState)
  | blocked (st : RLRState)
  | raised (st : RLRState) (e : PyErr)
deriving DecidableEq

/-- One iteration of the attempt loop up to (but excluding) `yield self`
(lines 412-443): proactive check; consume 1 from the request bucket and
`est` from the token bucket (both consumptions always happen, in this
order); on either denial, backoff-sleep and continue (`blocked` — note the
state passed on already contains **both** post-consumption buckets); else
append to the tracking deques (line 435: one `time.time()` read for the
append, line 439: one for the cutoff) and reach the yield (`proceed`).
An exception from the proactive check propagates (`raised`). -/
def gateAttempt (clock noise : ℕ → ℚ) (est : ℤ) (st : RLRState) (attempt : ℕ) : StepOut :=
  match check_proactive_limits st.m est with
  | .error e => .raised st e
  | .ok (can_proceed, _reason) =>
    if can_proceed = false then .blocked (backoffSleep noise st attempt)
    else
      let rc := consume st.m.request_bucket (clock st.ci) 1
      let tc := consume st.m.token_bucket (clock (st.ci + 1)) est
      let st1 := { st with
        m := { st.m with request_bucket := rc.1, token_bucket := tc.1 },
        ci := st.ci + 2 }
      if rc.2 = false then .blocked (backoffSleep noise st1 attempt)
      else if tc.2 = false then .blocked (backoffSleep noise st1 attempt)
      else
        let t := clock st1.ci
        let cutoff := clock (st1.ci + 1) - 300
        let rts := pruneOld (st1.m.request_times ++ [t]) cutoff
        let tus := dropExcess (st1.m.token_usage ++ [est]) rts.length
        .proceed { st1 with
          m := { st1.m with request_times := rts, token_usage := tus },
          ci := st1.ci + 2 }

/-- How the gating loop ends: at `yield self`, or by raising. -/
inductive GateOut where
  | yielded (st : RLRState) (attempt : ℕ)
  | raised (st : RLRState) (e : PyErr)
deriving DecidableEq

def GateOut.state : GateOut → RLRState
  | .yielded st _ => st
  | .raised st _ => st

/-- The `while attempt < self.backoff.max_retries` loop (lines 408-443) up
to the first `yield`.  `fuel` is the number of remaining loop entries,
`max_retries - attempt`; when it is 0 the loop exits and line 470 raises
the terminal `RateLimitError`. -/
def gatingLoop (clock noise : ℕ → ℚ) (est : ℤ) : ℕ → RLRState → ℕ → GateOut
  | 0, st, _ => .raised st .maxRetriesExceeded
  | f + 1, st, attempt =>
    let a' := attempt + 1
    let st' := bumpAttempt st
    match gateAttempt clock noise est st' a' with
    | .proceed s => .yielded s a'
    | .blocked s => gatingLoop clock noise est f s a'
    | .raised s e => .raised s e

/-- What the protected operation (the `with`-body) does at its single run. -/
inductive BodyOutcome where
  | success
  | rateLimited (retry_after : Option ℚ)
  | failure (tag : ℕ)
deriving DecidableEq

/-- Resumption of the generator after the body ran (lines 445-470 plus the
`contextlib` protocol).  On success: lines 448-451 (one `time.time()` read,
`successful_requests += 1`, response-time EMA, clean return).  On a
non-rate-limit exception: lines 465-467 re-raise immediately — no sleep, no
state change.  On `RateLimitError`: lines 453-463 (`rate_limited_requests
+= 1`; sleep `retry_after` if truthy — Python treats `0.0` as falsy — else
backoff-sleep; `retried_requests += 1` if attempts remain), then the loop
continues: reaching `yield` again makes `contextlib` raise
`RuntimeError("generator didn't stop after athrow()")`; exhausting the loop
raises the line-470 `RateLimitError` instead. -/
def handleBody (clock noise : ℕ → ℚ) (est : ℤ) (startTime : ℚ) (st : RLRState)
    (attempt : ℕ) (body : BodyOutcome) : RLRState × Except PyErr Unit :=
  let st := { st with opRuns := st.opRuns + 1 }
  match body with
  | .success =>
    let response_time := clock st.ci - startTime
    let mets := { st.m.metrics with
      successful_requests := st.m.metrics.successful_requests + 1 }
    let mets := update_response_time mets response_time
    ({ st with m := { st.m with metrics := mets }, ci := st.ci + 1 }, .ok ())
  | .failure tag => (st, .error (.opError tag))
  | .rateLimited ra =>
    let st := { st with m := { st.m with metrics :=
      { st.m.metrics with rate_limited_requests := st.m.metrics.rate_limited_requests + 1 } } }
    let st :=
      match ra with
      | some r => if r = 0 then backoffSleep noise st attempt
                  else { st with sleeps := st.sleeps ++ [r] }
      | none => backoffSleep noise st attempt
    let st :=
      if attempt < st.m.backoff.max_retries then
        { st with m := { st.m with metrics :=
          { st.m.metrics with retried_requests := st.m.metrics.retried_requests + 1 } } }
      else st
    match gatingLoop clock noise est (st.m.backoff.max_retries - attempt) st attempt with
    | .yielded s _ => (s, .error .runtimeGenDidNotStop)
    | .raised s e => (s, .error e)

/-- The fresh per-call state: `start_time = time.time()` is clock read 0
(line 404), so the state starts at clock index 1. -/
def initSt (m : RateLimitManager) : RLRState :=
  { m := m, ci := 1, ri := 0, sleeps := [], opRuns := 0, attempts := 0 }

/-- One full `async with manager.rate_limited_request(est)` call whose body
behaves as `body`, under the `contextlib` protocol described above. -/
def rate_limited_request (m : RateLimitManager) (est : ℤ) (clock noise : ℕ → ℚ)
    (body : BodyOutcome) : RLRState × Except PyErr Unit :=
  match gatingLoop clock noise est m.backoff.max_retries (initSt m) 0 with
  | .raised st e => (st, .error e)
  | .yielded st attempt => handleBody clock noise est (clock 0) st attempt body

/-! ## Claims C2, C8, C9, C10 -/

/-- A constant clock (`time.time()` always 0) and a zero jitter draw: the
simplest consistent environment for concrete runs. -/
def clock0 : ℕ → ℚ := fun _ => 0

def noise0 : ℕ → ℚ := fun _ => 0

/-- The C2 scenario's manager: defaults, except `max_retries = 3`. -/
def m2 : RateLimitManager :=
  { RateLimitManager.init 60 40000 10 0 with
    backoff := { defaultBackoff with max_retries := 3 } }

/-- Claim C2 (code bug): with `max_retries = 3` and a protected operation
that raises `RateLimitError` with no `retry_after`, the claim says 3
attempts happen, the terminal error is the max-retries `RateLimitError`,
and `retried_requests` grows by 2.  Because the retry loop lives inside an
`@asynccontextmanager` generator, the operation actually runs once; after
its `RateLimitError` is thrown into the generator, the loop's second
iteration reaches `yield` again and `contextlib` raises
`RuntimeError("generator didn't stop after athrow()")`: only 2 attempts
start (`total_requests = 2`), `retried_requests = 1`, and the caller sees
the `RuntimeError`, not the max-retries failure. -/
theorem rate_limited_request_athrow_runtime_error :
    (rate_limited_request m2 100 clock0 noise0 (.rateLimited none)).2 =
        .error .runtimeGenDidNotStop ∧
    (rate_limited_request m2 100 clock0 noise0 (.rateLimited none)).1.m.metrics.total_requests = 2 ∧
    (rate_limited_request m2 100 clock0 noise0 (.rateLimited none)).1.m.metrics.retried_requests = 1 ∧
    (rate_limited_request m2 100 clock0 noise0 (.rateLimited none)).1.m.metrics.rate_limited_requests = 1 ∧
    (rate_limited_request m2 100 clock0 noise0 (.rateLimited none)).1.opRuns = 1 ∧
    (rate_limited_request m2 100 clock0 noise0 (.rateLimited none)).1.attempts = 2 := by
  have ht0 : Int.toNat 0 = 0 := rfl
  refine ⟨?_, ?_, ?_, ?_, ?_, ?_⟩ <;>
    norm_num [rate_limited_request, gatingLoop, gateAttempt, handleBody, initSt, bumpAttempt,
      backoffSleep, consume, check_proactive_limits, get_rate_limit_info, m2,
      RateLimitManager.init, TokenBucket.init, defaultBackoff, metrics0, pymin, pymax,
      calculate_delay, capped_delay, clock0, noise0, pruneOld, dropExcess,
      update_response_time, GateOut.state, ht0]

/-- Claim C8: if the protected operation raises any exception that is not
`RateLimitError`, `rate_limited_request` propagates it immediately: the
final state is exactly the state at the yield point (no extra sleep, no
extra attempt, no metric change) apart from the operation having run once,
and the outcome is that exception. -/
theorem rate_limited_request_failfast (m : RateLimitManager) (est : ℤ)
    (clock noise : ℕ → ℚ) (tag : ℕ) (st : RLRState) (a : ℕ)
    (h : gatingLoop clock noise est m.backoff.max_retries (initSt m) 0 = .yielded st a) :
    rate_limited_request m est clock noise (.failure tag) =
      ({ st with opRuns := st.opRuns + 1 }, .error (.opError tag)) := by
  unfold rate_limited_request
  rw [h]
  rfl

/-- The yield-point state of a fresh default manager under `clock0`:
attempt 1 succeeds at once, consuming 1 request and 100 tokens. -/
def stC : RLRState :=
  { m := { RateLimitManager.init 60 40000 10 0 with
      request_bucket := { capacity := 60, refill_rate := 1, tokens := 59, last_refill := 0 },
      token_bucket := { capacity := 40000, refill_rate := 2000 / 3, tokens := 39900, last_refill := 0 },
      metrics := { metrics0 with total_requests := 1 },
      request_times := [0], token_usage := [100] },
    ci := 5, ri := 0, sleeps := [], opRuns := 0, attempts := 1 }

/-- Witness for C8: a concrete non-rate-limit body failure (tag 7)
propagates unchanged after a single successful gating attempt. -/
theorem rate_limited_request_failfast_witness :
    rate_limited_request (RateLimitManager.init 60 40000 10 0) 100 clock0 noise0 (.failure 7) =
      ({ stC with opRuns := 1 }, .error (.opError 7)) :=
  rate_limited_request_failfast (RateLimitManager.init 60 40000 10 0) 100 clock0 noise0 7 stC 1
    (by norm_num [gatingLoop, gateAttempt, initSt, bumpAttempt, consume,
      check_proactive_limits, get_rate_limit_info, RateLimitManager.init, TokenBucket.init,
      defaultBackoff, metrics0, pymin, clock0, noise0, pruneOld, dropExcess, stC])

/-- Claim C9: in one attempt, consumption is attempted on both buckets
unconditionally, and when at least one of them denies, the attempt is
blocked but the state carried into the backoff sleep and the next attempt
holds **both** post-consumption buckets — the granted side's deduction is
not refunded. -/
theorem gate_attempt_no_refund (clock noise : ℕ → ℚ) (est : ℤ) (st : RLRState) (a : ℕ)
    (rb' tb' : TokenBucket) (br bt : Bool)
    (hp : check_proactive_limits st.m est = .ok (true, none))
    (h1 : consume st.m.request_bucket (clock st.ci) 1 = (rb', br))
    (h2 : consume st.m.token_bucket (clock (st.ci + 1)) est = (tb', bt))
    (h3 : br = false ∨ bt = false) :
    gateAttempt clock noise est st a =
      .blocked (backoffSleep noise
        { st with m := { st.m with request_bucket := rb', token_bucket := tb' },
                  ci := st.ci + 2 } a) := by
  unfold gateAttempt
  rw [hp]
  simp only [h1, h2]
  rcases h3 with h3 | h3
  · subst h3; simp
  · subst h3
    by_cases hbr : br = false
    · subst hbr; simp
    · simp [hbr]

/-- An exhausted request bucket (0 tokens left). -/
def rbEmpty : TokenBucket :=
  { capacity := 60, refill_rate := 1, tokens := 0, last_refill := 0 }

/-- The default 40000-token bucket after 100 tokens were deducted. -/
def tbDeducted : TokenBucket :=
  { capacity := 40000, refill_rate := 2000 / 3, tokens := 39900, last_refill := 0 }

/-- A state whose request bucket is empty but whose token bucket is full:
the C9 witness scenario. -/
def stEmptyReq : RLRState :=
  { m := { RateLimitManager.init 60 40000 10 0 with request_bucket := rbEmpty },
    ci := 1, ri := 0, sleeps := [], opRuns := 0, attempts := 1 }

/-- Witness for C9: the request bucket denies its 1 unit while the token
bucket grants 100 tokens; the blocked state keeps the token bucket at
39900 (deducted, not refunded). -/
theorem gate_attempt_no_refund_witness :
    gateAttempt clock0 noise0 100 stEmptyReq 1 =
      .blocked (backoffSleep noise0
        { stEmptyReq with
          m := { stEmptyReq.m with request_bucket := rbEmpty, token_bucket := tbDeducted },
          ci := 3 } 1) :=
  gate_attempt_no_refund clock0 noise0 100 stEmptyReq 1 rbEmpty tbDeducted false true
    (by norm_num [check_proactive_limits, get_rate_limit_info, stEmptyReq, RateLimitManager.init])
    (by norm_num [consume, pymin, stEmptyReq, rbEmpty, RateLimitManager.init,
      TokenBucket.init, clock0])
    (by norm_num [consume, pymin, stEmptyReq, rbEmpty, tbDeducted, RateLimitManager.init,
      TokenBucket.init, clock0])
    (Or.inl rfl)

def StepOut.state : StepOut → RLRState
  | .proceed s => s
  | .blocked s => s
  | .raised s _ => s

theorem backoffSleep_m (noise : ℕ → ℚ) (st : RLRState) (a : ℕ) :
    (backoffSleep noise st a).m = st.m := rfl

theorem backoffSleep_attempts (noise : ℕ → ℚ) (st : RLRState) (a : ℕ) :
    (backoffSleep noise st a).attempts = st.attempts := rfl

/-- The gating part of one attempt never touches `metrics` or the ghost
attempt counter. -/
theorem gateAttempt_pres (clock noise : ℕ → ℚ) (est : ℤ) (st : RLRState) (a : ℕ) :
    (gateAttempt clock noise est st a).state.m.metrics = st.m.metrics ∧
    (gateAttempt clock noise est st a).state.attempts = st.attempts := by
  unfold gateAttempt
  cases hc : check_proactive_limits st.m est with
  | error e => simp [StepOut.state]
  | ok p =>
    obtain ⟨can, r⟩ := p
    by_cases hcan : can = false
    · simp [hcan, StepOut.state, backoffSleep]
    · simp only [hcan, if_false, Bool.false_eq_true]
      by_cases h1 : (consume st.m.request_bucket (clock st.ci) 1).2 = false
      · simp [h1, StepOut.state, backoffSleep]
      · by_cases h2 : (consume st.m.token_bucket (clock (st.ci + 1)) est).2 = false
        · simp [h1, h2, StepOut.state, backoffSleep]
        · simp [h1, h2, StepOut.state]

/-- Along the gating loop, `total_requests` and the ghost `attempts`
counter advance in lockstep. -/
theorem gatingLoop_counts (clock noise : ℕ → ℚ) (est : ℤ) :
    ∀ (f : ℕ) (st : RLRState) (a : ℕ),
      (gatingLoop clock noise est f st a).state.m.metrics.total_requests + st.attempts =
      (gatingLoop clock noise est f st a).state.attempts + st.m.metrics.total_requests := by
  intro f
  induction f with
  | zero =>
    intro st a
    simp only [gatingLoop, GateOut.state]
    omega
  | succ n ih =>
    intro st a
    simp only [gatingLoop]
    cases hg : gateAttempt clock noise est (bumpAttempt st) (a + 1) with
    | proceed s =>
      have hp := gateAttempt_pres clock noise est (bumpAttempt st) (a + 1)
      rw [hg] at hp
      simp only [StepOut.state] at hp
      dsimp only [GateOut.state]
      simp only [hp.1, hp.2, bumpAttempt]
      omega
    | blocked s =>
      have hp := gateAttempt_pres clock noise est (bumpAttempt st) (a + 1)
      rw [hg] at hp
      simp only [StepOut.state] at hp
      have hrec := ih s (a + 1)
      dsimp only
      have hm : s.m.metrics.total_requests = st.m.metrics.total_requests + 1 := by
        rw [hp.1]; simp [bumpAttempt]
      have ha : s.attempts = st.attempts + 1 := by
        rw [hp.2]; simp [bumpAttempt]
      omega
    | raised s e =>
      have hp := gateAttempt_pres clock noise est (bumpAttempt st) (a + 1)
      rw [hg] at hp
      simp only [StepOut.state] at hp
      dsimp only [GateOut.state]
      simp only [hp.1, hp.2, bumpAttempt]
      omega

/-- The post-body resumption also keeps `total_requests` and `attempts` in
lockstep. -/
theorem handleBody_counts (clock noise : ℕ → ℚ) (est : ℤ) (startTime : ℚ)
    (st : RLRState) (attempt : ℕ) (body : BodyOutcome) :
    (handleBody clock noise est startTime st attempt body).1.m.metrics.total_requests + st.attempts =
    (handleBody clock noise est startTime st attempt body).1.attempts + st.m.metrics.total_requests := by
  unfold handleBody
  cases body with
  | success =>
    simp only [update_response_time]
    split <;> simp <;> omega
  | failure tag => simp; omega
  | rateLimited ra =>
    have key : ∀ (st2 : RLRState),
        st2.m.metrics.total_requests = st.m.metrics.total_requests →
        st2.attempts = st.attempts →
        (match gatingLoop clock noise est (st2.m.backoff.max_retries - attempt) st2 attempt with
          | .yielded s _ => (s, (.error .runtimeGenDidNotStop : Except PyErr Unit))
          | .raised s e => (s, .error e)).1.m.metrics.total_requests + st.attempts =
        (match gatingLoop clock noise est (st2.m.backoff.max_retries - attempt) st2 attempt with
          | .yielded s _ => (s, (.error .runtimeGenDidNotStop : Except PyErr Unit))
          | .raised s e => (s, .error e)).1.attempts + st.m.metrics.total_requests := by
      intro st2 h1 h2
      have hl := gatingLoop_counts clock noise est (st2.m.backoff.max_retries - attempt) st2 attempt
      cases hg : gatingLoop clock noise est (st2.m.backoff.max_retries - attempt) st2 attempt with
      | yielded s b => rw [hg] at hl; simp only [GateOut.state] at hl; simp; omega
      | raised s e => rw [hg] at hl; simp only [GateOut.state] at hl; simp; omega
    rcases ra with _ | r
    · exact key _ (by simp [backoffSleep]; split <;> simp) (by simp [backoffSleep]; split <;> simp)
    · by_cases hr : r = 0
      · simp only [hr, if_pos]
        exact key _ (by simp [backoffSleep]; split <;> simp) (by simp [backoffSleep]; split <;> simp)
      · simp only [hr, if_neg, not_false_iff]
        exact key _ (by split <;> simp) (by split <;> simp)

/-- Claim C10: `total_requests` counts attempts — one full
`rate_limited_request` invocation increases it by exactly the number of
loop iterations it started (proactive blocks, bucket denials and
rate-limit failures included), measured by the ghost `attempts` counter
incremented at line 409-410 together with the metric. -/
theorem total_requests_counts_attempts (m : RateLimitManager) (est : ℤ)
    (clock noise : ℕ → ℚ) (body : BodyOutcome) :
    (rate_limited_request m est clock noise body).1.m.metrics.total_requests =
      m.metrics.total_requests + (rate_limited_request m est clock noise body).1.attempts := by
  unfold rate_limited_request
  cases hg : gatingLoop clock noise est m.backoff.max_retries (initSt m) 0 with
  | raised st e =>
    have h := gatingLoop_counts clock noise est m.backoff.max_retries (initSt m) 0
    rw [hg] at h
    simp only [GateOut.state, initSt] at h
    simp
    omega
  | yielded st a =>
    have h := gatingLoop_counts clock noise est m.backoff.max_retries (initSt m) 0
    rw [hg] at h
    simp only [GateOut.state, initSt] at h
    have h2 := handleBody_counts clock noise est (clock 0) st a body
    simp
    omega

end RateLimiting
